import Mathlib

/-!
Shallow embedding of `src/tracer/opencl/cl_tracer.go` (package `opencl`):
the per-device OpenCL tracer controller of the polaris path tracer.

Device interaction is modelled by an explicit trace of `Event`s emitted by
each operation, and by oracles (`SetupOracle`, `ProcOracle`, `relOk`) that
decide whether each fallible device call succeeds.  Machine integers are
`Nat` with explicit `% pow32` where the Go code multiplies `uint32`
values.  32-bit floats are carried as opaque 32-bit words (`Nat`), never
computed with.  Go runtime panics (nil-pointer dereference, close of a
closed channel) are explicit `Outcome` constructors.
-/

namespace Opencl

/-- The error taxonomy of the tracer (`ErrXxx` values of the package).
`rawError` stands for a raw Go `error` value returned untranslated
(file open / read failures and `packScene` failures). -/
inductive TraceErr where
  | ContextCreationFailed
  | CmdQueueCreationFailed
  | AlreadyAttached
  | PendingSetup
  | ProgramCreationFailed
  | ProgramBuildFailed
  | KernelCreationFailed
  | AllocatingBuffers
  | CopyingDataToDevice
  | SettingKernelArguments
  | KernelExecutionFailed
  | CopyingDataToHost
  | rawError
deriving DecidableEq, Repr

/-- The device-side resources owned by one `clTracer`. -/
inductive Res where
  | context
  | cmdQueue
  | program
  | kernel
  | traceOutput
  | frustrumCorners
  | packedMaterials
  | packedPrimitives
deriving DecidableEq, Repr

/-- Four 32-bit float channels, carried as opaque 32-bit words. -/
structure Vec4 where
  x : Nat
  y : Nat
  z : Nat
  w : Nat
deriving DecidableEq, Repr

/-- Modelled from the spec: a scene material; the `scene` package is outside
`src/`.  Per the packed-record format each material packs to one 16-byte
4 x f32 record, carried here directly. -/
structure Material where
  packed : Vec4
deriving DecidableEq, Repr

/-- Modelled from the spec: a scene primitive; the `scene` package is outside
`src/`.  Each primitive packs to one 16-byte 4 x f32 record. -/
structure Primitive where
  packed : Vec4
deriving DecidableEq, Repr

/-- Modelled from the spec: the camera, with its eye position and the four
frustrum corner vectors (re-uploaded on every sync / block request). -/
structure Camera where
  position : Vec4
  frustrum : List Vec4
deriving DecidableEq, Repr

/-- Modelled from the spec: the scene reference held (not owned) by the
tracer: camera plus primitive and material collections. -/
structure Scene where
  camera : Camera
  primitives : List Primitive
  materials : List Material
deriving DecidableEq, Repr

/-- An OpenCL device descriptor (id, name, speed estimate as f32 bits). -/
structure Device where
  devId : Nat
  name : String
  speed : Nat
deriving DecidableEq, Repr

/-- `unsafe.Sizeof` of one packed record: 16 bytes (4 x 32-bit float). -/
def packedRecordSize : Nat := 16

/-- 2^32: the modulus of Go `uint32` arithmetic. -/
def pow32 : Nat := 4294967296

/-- Modelled from the spec: `packScene` (the `PackedSceneEncoder`, defined
outside `src/`) flattens the scene into (packedMaterials, packedPrimitives),
one fixed-stride record per element, index-aligned with the source
collections; a pure transform that cannot fail on well-formed scenes. -/
def packScene (sc : Scene) : Except String (List Vec4 × List Vec4) :=
  .ok (sc.materials.map Material.packed, sc.primitives.map Primitive.packed)

/-- The `clTracer` struct.  Device handles are tracked by presence
(`true` = non-nil handle); `closeChanClosed` records whether `closeChan`
has been closed; `workerRunning` whether the worker goroutine was started. -/
structure ClTracer where
  id : String
  device : Device
  ctx : Bool
  cmdQueue : Bool
  traceProgram : Bool
  traceKernel : Bool
  traceOutput : Bool
  frustrumCorners : Bool
  packedMaterials : Bool
  packedPrimitives : Bool
  scene : Option Scene
  frameW : Nat
  frameH : Nat
  closeChanClosed : Bool
  workerRunning : Bool
deriving DecidableEq, Repr

/-- Result of an operation: normal return, error return, or a Go runtime
panic (nil-pointer dereference, or closing an already-closed channel). -/
inductive Outcome (α : Type) where
  | ok (a : α)
  | err (e : TraceErr)
  | nilDeref
  | closedChanPanic
deriving DecidableEq, Repr

/-- A kernel-argument value as passed to `cl.SetKernelArg`. -/
inductive ArgVal where
  | memObj (r : Res)
  | word32 (n : Nat)
  | vec (v : Vec4)
deriving DecidableEq, Repr

/-- One observable device / runtime action of the tracer. -/
inductive Event where
  | createContext
  | createCommandQueue
  | createProgram
  | buildProgram
  | getBuildInfo
  | logMsg (s : String)
  | createKernel (entry : String)
  | createBuffer (r : Res) (bytes : Nat)
  | createImage (r : Res) (width : Nat) (readOnlyCopyHost : Bool) (hostData : List Vec4)
  | writeBuffer (r : Res) (offset : Nat) (bytes : Nat)
  | setKernelArg (idx : Nat) (bytes : Nat) (v : ArgVal)
  | ndRange (workDim : Nat) (offset : List Nat) (size : List Nat)
  | finish
  | readBuffer (offset : Nat) (bytes : Nat) (hostFloatIdx : Nat)
  | release (r : Res)
  | closeChanClose
  | waitWorker
deriving DecidableEq, Repr

/-- The `clTracer` state `newTracer` builds on success: context and command
queue allocated, everything else at its Go zero value. -/
def newTracerState (id : String) (device : Device) : ClTracer :=
  { id := id
  , device := device
  , ctx := true
  , cmdQueue := true
  , traceProgram := false
  , traceKernel := false
  , traceOutput := false
  , frustrumCorners := false
  , packedMaterials := false
  , packedPrimitives := false
  , scene := none
  , frameW := 0
  , frameH := 0
  , closeChanClosed := false
  , workerRunning := false }

/-- `newTracer`: create context and command queue.  In the source
`var errptr *int32` is declared and never assigned, so both
`errptr != nil && ...` checks are dead: `newTracer` never fails. -/
def newTracer (id : String) (device : Device) : Outcome ClTracer × List Event :=
  let errptr : Option Int := none
  if errptr.isSome then
    (.err .ContextCreationFailed, [.createContext])
  else if errptr.isSome then
    (.err .CmdQueueCreationFailed, [.createContext, .createCommandQueue, .release .context])
  else
    (.ok (newTracerState id device), [.createContext, .createCommandQueue])

/-- The guarded release sequence of `cleanup`, in source order: each handle
is released only if present (non-nil). -/
def resPresence (tr : ClTracer) : List (Bool × Res) :=
  [ (tr.packedPrimitives, .packedPrimitives)
  , (tr.packedMaterials, .packedMaterials)
  , (tr.traceOutput, .traceOutput)
  , (tr.frustrumCorners, .frustrumCorners)
  , (tr.traceKernel, .kernel)
  , (tr.traceProgram, .program)
  , (tr.cmdQueue, .cmdQueue)
  , (tr.ctx, .context) ]

/-- Emit a release event for every present resource, in list order. -/
def guardedReleases : List (Bool × Res) → List Event
  | [] => []
  | (b, r) :: rest => (if b then [Event.release r] else []) ++ guardedReleases rest

/-- `cleanup`: early-return when `ctx` is nil; otherwise close `closeChan`
(a second close of the same channel would panic in Go), wait for the worker
to exit, then release every present handle in source order, nil-ing the
fields.  The `cl.Release*` return codes are ignored by the source, so the
release oracle `relOk` is never consulted: every release is attempted. -/
def cleanup (useLock : Bool) (relOk : Res → Bool) (tr : ClTracer) :
    Outcome Unit × ClTracer × List Event :=
  if tr.ctx = false then (.ok (), tr, [])
  else if tr.closeChanClosed then (.closedChanPanic, tr, [])
  else
    let evs := Event.closeChanClose :: Event.waitWorker :: guardedReleases (resPresence tr)
    let tr' := { tr with
      packedPrimitives := false
      packedMaterials := false
      traceOutput := false
      frustrumCorners := false
      traceKernel := false
      traceProgram := false
      cmdQueue := false
      ctx := false
      closeChanClosed := true
      workerRunning := false }
    (.ok (), tr', evs)

/-- `Close`: lock the tracer and perform cleanup. -/
def Close (relOk : Res → Bool) (tr : ClTracer) : Outcome Unit × ClTracer × List Event :=
  cleanup true relOk tr

/-- `syncScene`: guard on `tr.ctx == nil` (returning `ErrPendingSetup`),
then write the 64 frustrum-corner bytes to the device.  Taking the address
`&tr.scene.Camera.Frustrum[0]` dereferences `tr.scene`, which is a nil
pointer whenever `Setup` has not stored a scene: a runtime panic before any
device call.  `writeOk` is the device's verdict on the buffer write. -/
def syncScene (useLock : Bool) (writeOk : Bool) (tr : ClTracer) :
    Outcome Unit × List Event :=
  if tr.ctx = false then (.err .PendingSetup, [])
  else
    match tr.scene with
    | none => (.nilDeref, [])
    | some _ =>
      let ev := Event.writeBuffer .frustrumCorners 0 (4 * 16)
      if writeOk then (.ok (), [ev])
      else (.err .CopyingDataToDevice, [ev, .logMsg ("Failed to write frustrum corner data")])

/-- Public `SyncScene`: `syncScene` under the tracer lock. -/
def SyncScene (writeOk : Bool) (tr : ClTracer) : Outcome Unit × List Event :=
  syncScene true writeOk tr

/-- The device / filesystem verdicts consulted during `setupKernel`. -/
structure SetupOracle where
  openOk : Bool
  readOk : Bool
  buildOk : Bool
  buildLog : String
  writeFrustumOk : Bool

/-- The fixed text prepended to the compiler diagnostic in the build log. -/
def buildLogHead : String := "Error building kernel (log follows):\n"

/-- Fail a setup step: run `cleanup(false)` on everything allocated so far,
then return the step's error (a cleanup panic would propagate instead). -/
def failCleanup (e : TraceErr) (relOk : Res → Bool) (tr : ClTracer) (evs : List Event) :
    Outcome Unit × ClTracer × List Event :=
  match cleanup false relOk tr with
  | (.ok _, tr2, cevs) => (.err e, tr2, evs ++ cevs)
  | (out, tr2, cevs) => (out, tr2, evs ++ cevs)

/-- `setupKernel`: load the kernel source, create and build the program
(logging the build diagnostic and cleaning up on build failure), create the
kernel, allocate the output and frustrum buffers, pack the scene, allocate
and upload the packed 1D images, and run an initial scene sync.  As in
`newTracer`, `var errPtr *int32` is never assigned, so every
`errPtr != nil && ...` check (program / kernel / buffer / image creation)
is dead code; only the `errCode`-based checks are live. -/
def setupKernel (tr : ClTracer) (sc : Scene) (frameW frameH : Nat)
    (o : SetupOracle) (relOk : Res → Bool) : Outcome Unit × ClTracer × List Event :=
  -- os.Open / ioutil.ReadAll: a raw error is returned with no cleanup
  if o.openOk = false then (.err .rawError, tr, [])
  else if o.readOk = false then (.err .rawError, tr, [])
  else
  let errPtr : Option Int := none
  -- cl.CreateProgramWithSource: the handle is stored before the (dead) check
  let tr1 := { tr with traceProgram := true }
  let evs1 := [Event.createProgram]
  if errPtr.isSome then (.err .ProgramCreationFailed, tr1, evs1)
  else
  let evs2 := evs1 ++ [Event.buildProgram]
  if o.buildOk = false then
    failCleanup .ProgramBuildFailed relOk tr1
      (evs2 ++ [.getBuildInfo, .logMsg (buildLogHead ++ o.buildLog)])
  else
  let tr2 := { tr1 with traceKernel := true }
  let evs3 := evs2 ++ [Event.createKernel ("tracePixel")]
  if errPtr.isSome then failCleanup .KernelCreationFailed relOk tr2 evs3
  else
  -- output buffer: 4 channels x 4 bytes x W x H, a uint32 product
  let tr3 := { tr2 with traceOutput := true }
  let evs4 := evs3 ++ [Event.createBuffer .traceOutput ((4 * 4 * frameW * frameH) % pow32)]
  if errPtr.isSome then failCleanup .AllocatingBuffers relOk tr3 evs4
  else
  -- frustrum corners buffer: 4 x Vec4 = 64 bytes
  let tr4 := { tr3 with frustrumCorners := true }
  let evs5 := evs4 ++ [Event.createBuffer .frustrumCorners (4 * 4 * 4)]
  if errPtr.isSome then failCleanup .AllocatingBuffers relOk tr4 evs5
  else
  -- packScene(tr.scene): dereferences the stored scene pointer
  match tr4.scene with
  | none => (.nilDeref, tr4, evs5)
  | some scn =>
    match packScene scn with
    | .error _ => failCleanup .rawError relOk tr4 evs5
    | .ok (packedMaterials, packedPrimitives) =>
      -- packed-material image (skipped when empty); upload at creation via
      -- MEM_READ_ONLY|MEM_COPY_HOST_PTR; the creation error check is dead
      let (tr5, evs6) :=
        if 0 < packedMaterials.length then
          let sizeInBytes := packedMaterials.length * packedRecordSize
          ({ tr4 with packedMaterials := true },
            evs5 ++ [Event.createImage .packedMaterials (sizeInBytes >>> 4) true packedMaterials])
        else (tr4, evs5)
      -- packed-primitive image (skipped when empty); dead error check
      let (tr6, evs7) :=
        if 0 < packedPrimitives.length then
          let sizeInBytes := packedPrimitives.length * packedRecordSize
          ({ tr5 with packedPrimitives := true },
            evs6 ++ [Event.createImage .packedPrimitives (sizeInBytes >>> 4) true packedPrimitives])
        else (tr5, evs6)
      -- initial scene sync
      match syncScene false o.writeFrustumOk tr6 with
      | (.ok _, sevs) => (.ok (), tr6, evs7 ++ sevs)
      | (.err e, sevs) => failCleanup e relOk tr6 (evs7 ++ sevs)
      | (out, sevs) => (out, tr6, evs7 ++ sevs)

/-- `Setup`: under the lock, fail with `ErrAlreadyAttached` when a kernel is
already attached; otherwise store the scene and frame dimensions, run
`setupKernel`, and on success start the worker goroutine. -/
def Setup (sc : Scene) (frameW frameH : Nat) (o : SetupOracle) (relOk : Res → Bool)
    (tr : ClTracer) : Outcome Unit × ClTracer × List Event :=
  if tr.traceKernel then (.err .AlreadyAttached, tr, [])
  else
    let tr1 := { tr with scene := some sc, frameW := frameW, frameH := frameH }
    match setupKernel tr1 sc frameW frameH o relOk with
    | (.ok _, tr2, evs) => (.ok (), { tr2 with workerRunning := true }, evs)
    | other => other

/-- Modelled from the spec: `tracer.BlockRequest` (the `tracer` package is
outside `src/`): the sub-rectangle, render parameters, and the caller's
render target, a float array indexed by float index and carrying opaque
32-bit words. -/
structure BlockRequest where
  BlockY : Nat
  BlockH : Nat
  SamplesPerPixel : Nat
  Exposure : Nat
  Seed : Nat
  RenderTarget : Nat → Nat

/-- The device verdicts consulted during `process`. -/
structure ProcOracle where
  writeFrustumOk : Bool
  setArgOk : Nat → Bool
  ndRangeOk : Bool
  finishOk : Bool
  readOk : Bool

/-- One `cl.SetKernelArg` call: argument index, byte size, value. -/
structure KArg where
  idx : Nat
  bytes : Nat
  val : ArgVal
deriving DecidableEq, Repr

/-- The ten kernel arguments of `process`, in source order.  Argument 4
copies 4 bytes of the Go `int` `numPrimitives` (its low 32 bits). -/
def kernelArgs (scn : Scene) (req : BlockRequest) : List KArg :=
  [ ⟨0, 8, .memObj .traceOutput⟩
  , ⟨1, 8, .memObj .frustrumCorners⟩
  , ⟨2, 8, .memObj .packedPrimitives⟩
  , ⟨3, 8, .memObj .packedMaterials⟩
  , ⟨4, 4, .word32 (scn.primitives.length % pow32)⟩
  , ⟨5, 16, .vec scn.camera.position⟩
  , ⟨6, 4, .word32 req.BlockY⟩
  , ⟨7, 4, .word32 req.SamplesPerPixel⟩
  , ⟨8, 4, .word32 req.Exposure⟩
  , ⟨9, 4, .word32 req.Seed⟩ ]

/-- The log line printed when binding kernel argument `i` fails. -/
def argFailMsg (i : Nat) : String := "Failed to write kernel arg " ++ toString i

/-- Bind the kernel arguments in order; the first failing `cl.SetKernelArg`
logs and aborts with `ErrSettingKernelArguments`. -/
def bindArgs (ok : Nat → Bool) : List KArg → Option TraceErr × List Event
  | [] => (none, [])
  | a :: rest =>
    let ev := Event.setKernelArg a.idx a.bytes a.val
    if ok a.idx then
      ((bindArgs ok rest).1, ev :: (bindArgs ok rest).2)
    else (some .SettingKernelArguments, [ev, .logMsg (argFailMsg a.idx)])

/-- The effect of `cl.EnqueueReadBuffer` on the caller's render target:
`lenBytes` bytes from device byte offset `offBytes` land at float index
`offBytes / 4`; every float outside the copied range keeps its old value.
`dev` is the device output buffer, float-indexed. -/
def applyRead (dev target : Nat → Nat) (offBytes lenBytes : Nat) : Nat → Nat :=
  fun i => if offBytes / 4 ≤ i ∧ i < offBytes / 4 + lenBytes / 4 then dev i else target i

/-- `process`: upload the frustrum corners, bind the ten kernel arguments,
dispatch the kernel over (frameW x BlockH) at offset (0, BlockY), wait for
completion, then copy the rendered block back to the render target.  The
read offset and length are `uint32` products (`frameW * 4 * 4 * BlockY`
and `frameW * 4 * 4 * BlockH`) widened to `uint64` afterwards; the host
float index is the byte offset shifted right by 2. -/
def process (o : ProcOracle) (dev : Nat → Nat) (tr : ClTracer) (req : BlockRequest) :
    Outcome (Nat → Nat) × List Event :=
  match tr.scene with
  | none => (.nilDeref, [])
  | some scn =>
    let ev0 := Event.writeBuffer .frustrumCorners 0 (4 * 16)
    if o.writeFrustumOk = false then
      (.err .CopyingDataToDevice, [ev0, .logMsg ("Failed to write frustrum corner data")])
    else
      match bindArgs o.setArgOk (kernelArgs scn req) with
      | (some e, aevs) => (.err e, ev0 :: aevs)
      | (none, aevs) =>
        let evs1 := ev0 :: aevs ++ [Event.ndRange 2 [0, req.BlockY] [tr.frameW, req.BlockH]]
        if o.ndRangeOk = false then (.err .KernelExecutionFailed, evs1)
        else
          let evs2 := evs1 ++ [Event.finish]
          if o.finishOk = false then (.err .KernelExecutionFailed, evs2)
          else
            let readOffset := (tr.frameW * 4 * 4 * req.BlockY) % pow32
            let blockSizeBytes := (tr.frameW * 4 * 4 * req.BlockH) % pow32
            let evs3 := evs2 ++ [Event.readBuffer readOffset blockSizeBytes (readOffset >>> 2)]
            if o.readOk = false then
              (.err .CopyingDataToHost, evs3 ++ [.logMsg ("Error copying data to host")])
            else
              (.ok (applyRead dev req.RenderTarget readOffset blockSizeBytes), evs3)

/-- A Go channel: capacity plus its buffered elements. -/
structure Chan (α : Type) where
  capacity : Nat
  buffered : List α

/-- A `select`-with-`default` send: succeeds immediately when a receiver is
waiting, or when buffer space remains; otherwise gives up without blocking
and leaves the channel unchanged. -/
def trySend {α : Type} (receiverWaiting : Bool) (c : Chan α) (x : α) : Bool × Chan α :=
  if receiverWaiting then (true, c)
  else if c.buffered.length < c.capacity then (true, { c with buffered := c.buffered ++ [x] })
  else (false, c)

/-- `blockReqChan` as created by `newTracer`: `make(chan tracer.BlockRequest, 0)`,
an unbuffered (zero-capacity) channel. -/
def blockReqChanInit : Chan BlockRequest := { capacity := 0, buffered := [] }

/-- `Enqueue`: a non-blocking send on `blockReqChan`, dropping the request
when the worker is not listening. -/
def Enqueue (receiverWaiting : Bool) (c : Chan BlockRequest) (req : BlockRequest) :
    Bool × Chan BlockRequest :=
  trySend receiverWaiting c req

/-- A completion signal delivered on a block request's channels. -/
inductive Signal where
  | done (rows : Nat)
  | failed (e : TraceErr)
deriving Repr

/-- The worker-loop body for one received request: process it, then reply
with `BlockH` on `DoneChan` or with the error on `ErrChan`; a panic kills
the worker and signals nothing. -/
def workerServe (o : ProcOracle) (dev : Nat → Nat) (tr : ClTracer) (req : BlockRequest) :
    List Signal :=
  match process o dev tr req with
  | (.ok _, _) => [.done req.BlockH]
  | (.err e, _) => [.failed e]
  | _ => []

/-- All signals the caller ever observes for one `Enqueue` attempt: the
worker serves the request only if the hand-off succeeded. -/
def attemptSignals (receiverWaiting : Bool) (c : Chan BlockRequest) (o : ProcOracle)
    (dev : Nat → Nat) (tr : ClTracer) (req : BlockRequest) : List Signal :=
  if (Enqueue receiverWaiting c req).1 then workerServe o dev tr req else []

/-! ### Trace observers and sample inputs -/

/-- The resources created by a trace, in creation order. -/
def createdRes : List Event → List Res
  | [] => []
  | .createContext :: t => .context :: createdRes t
  | .createCommandQueue :: t => .cmdQueue :: createdRes t
  | .createProgram :: t => .program :: createdRes t
  | .createKernel _ :: t => .kernel :: createdRes t
  | .createBuffer r _ :: t => r :: createdRes t
  | .createImage r _ _ _ :: t => r :: createdRes t
  | _ :: t => createdRes t

/-- The resources released by a trace, in release order. -/
def releasedRes : List Event → List Res
  | [] => []
  | .release r :: t => r :: releasedRes t
  | _ :: t => releasedRes t

/-- The `cl.SetKernelArg` calls of a trace: (index, byte size, value). -/
def setArgCalls : List Event → List (Nat × Nat × ArgVal)
  | [] => []
  | .setKernelArg i b v :: t => (i, b, v) :: setArgCalls t
  | _ :: t => setArgCalls t

/-- The `cl.EnqueueReadBuffer` calls of a trace:
(byte offset, byte length, host float index). -/
def readCalls : List Event → List (Nat × Nat × Nat)
  | [] => []
  | .readBuffer o b i :: t => (o, b, i) :: readCalls t
  | _ :: t => readCalls t

/-- Presence of a device resource handle in the tracer state. -/
def hasRes (tr : ClTracer) : Res → Bool
  | .context => tr.ctx
  | .cmdQueue => tr.cmdQueue
  | .program => tr.traceProgram
  | .kernel => tr.traceKernel
  | .traceOutput => tr.traceOutput
  | .frustrumCorners => tr.frustrumCorners
  | .packedMaterials => tr.packedMaterials
  | .packedPrimitives => tr.packedPrimitives

def vec0 : Vec4 := ⟨0, 0, 0, 0⟩

def camera1 : Camera := { position := vec0, frustrum := [vec0, vec0, vec0, vec0] }

/-- A one-primitive, one-material sample scene. -/
def scene1 : Scene :=
  { camera := camera1, primitives := [⟨⟨1, 2, 3, 4⟩⟩], materials := [⟨⟨5, 6, 7, 8⟩⟩] }

def sampleDevice : Device := { devId := 0, name := "dev0", speed := 0 }

/-- A device on which every setup step succeeds. -/
def allOkSetup : SetupOracle :=
  { openOk := true, readOk := true, buildOk := true, buildLog := "", writeFrustumOk := true }

/-- A device on which every processing step succeeds. -/
def allOkProc : ProcOracle :=
  { writeFrustumOk := true, setArgOk := fun _ => true, ndRangeOk := true
  , finishOk := true, readOk := true }

def allRel : Res → Bool := fun _ => true

/-! ### Helper lemmas -/

theorem bindArgs_all_ok (ok : Nat → Bool) (L : List KArg) (h : ∀ a ∈ L, ok a.idx = true) :
    bindArgs ok L = (none, L.map (fun a => Event.setKernelArg a.idx a.bytes a.val)) := by
  induction L with
  | nil => rfl
  | cons a t ih =>
    have ha := h a (List.mem_cons_self a t)
    have ht := ih (fun b hb => h b (List.mem_cons_of_mem a hb))
    simp [bindArgs, ha, ht]

theorem bindArgs_fail (ok : Nat → Bool) (L : List KArg)
    (h : ∃ a ∈ L, ok a.idx = false) :
    (bindArgs ok L).1 = some .SettingKernelArguments := by
  induction L with
  | nil => simp at h
  | cons a t ih =>
    by_cases ha : ok a.idx = true
    · obtain ⟨b, hb, hbf⟩ := h
      rcases List.mem_cons.mp hb with hba | hbt
      · rw [hba] at hbf; rw [ha] at hbf; cases hbf
      · have ht := ih ⟨b, hbt, hbf⟩
        simp [bindArgs, ha, ht]
    · have ha' : ok a.idx = false := by simpa using ha
      simp [bindArgs, ha']

theorem bindArgs_no_ndRange (ok : Nat → Bool) (L : List KArg) (d : Nat)
    (off sz : List Nat) : Event.ndRange d off sz ∉ (bindArgs ok L).2 := by
  induction L with
  | nil => simp [bindArgs]
  | cons a t ih =>
    by_cases ha : ok a.idx = true
    · simp only [bindArgs, ha, if_true]
      intro hmem
      rcases List.mem_cons.mp hmem with hc | hc
      · cases hc
      · exact ih hc
    · have ha' : ok a.idx = false := by simpa using ha
      simp [bindArgs, ha']

theorem mem_guardedReleases {e : Event} :
    ∀ {xs : List (Bool × Res)}, e ∈ guardedReleases xs →
      ∃ p ∈ xs, p.1 = true ∧ e = Event.release p.2 := by
  intro xs
  induction xs with
  | nil => intro h; simp [guardedReleases] at h
  | cons p t ih =>
    intro h
    rcases p with ⟨b, r⟩
    by_cases hb : b = true
    · rw [hb] at h
      simp [guardedReleases] at h
      rcases h with rfl | h
      · exact ⟨(b, r), List.mem_cons_self _ _, hb, by rw [hb]⟩
      · obtain ⟨q, hq, h1, h2⟩ := ih h
        exact ⟨q, List.mem_cons_of_mem _ hq, h1, h2⟩
    · have hb' : b = false := by simpa using hb
      rw [hb'] at h
      simp [guardedReleases] at h
      obtain ⟨q, hq, h1, h2⟩ := ih h
      exact ⟨q, List.mem_cons_of_mem _ hq, h1, h2⟩

/-- The state a fully successful `Setup` (on a fresh tracer) leaves behind. -/
def readyState (id : String) (device : Device) (sc : Scene) (w h : Nat) : ClTracer :=
  { id := id
  , device := device
  , ctx := true
  , cmdQueue := true
  , traceProgram := true
  , traceKernel := true
  , traceOutput := true
  , frustrumCorners := true
  , packedMaterials := !sc.materials.isEmpty
  , packedPrimitives := !sc.primitives.isEmpty
  , scene := some sc
  , frameW := w
  , frameH := h
  , closeChanClosed := false
  , workerRunning := true }

/-- The device-call trace of a fully successful `Setup` on a fresh tracer. -/
def setupEvents (sc : Scene) (w h : Nat) : List Event :=
  [Event.createProgram, Event.buildProgram, Event.createKernel ("tracePixel"),
   Event.createBuffer .traceOutput ((4 * 4 * w * h) % pow32),
   Event.createBuffer .frustrumCorners (4 * 4 * 4)]
  ++ (if 0 < sc.materials.length then
        [Event.createImage .packedMaterials ((sc.materials.length * packedRecordSize) >>> 4)
          true (sc.materials.map Material.packed)]
      else [])
  ++ (if 0 < sc.primitives.length then
        [Event.createImage .packedPrimitives ((sc.primitives.length * packedRecordSize) >>> 4)
          true (sc.primitives.map Primitive.packed)]
      else [])
  ++ [Event.writeBuffer .frustrumCorners 0 (4 * 16)]

theorem setup_ok_eq (id : String) (device : Device) (sc : Scene) (w h : Nat)
    (relOk : Res → Bool) :
    Setup sc w h allOkSetup relOk (newTracerState id device) =
      (.ok (), readyState id device sc w h, setupEvents sc w h) := by
  by_cases hm : sc.materials = [] <;> by_cases hp : sc.primitives = [] <;>
    simp [Setup, setupKernel, newTracerState, allOkSetup, packScene, syncScene,
      readyState, setupEvents, packedRecordSize, hm, hp,
      List.length_pos, List.isEmpty_iff]

/-- A fresh tracer as `newTracer` returns it. -/
def t0 : ClTracer := newTracerState ("t") sampleDevice

/-- The tracer after a fully successful `Setup` of `scene1` at 4 x 4. -/
def readyT : ClTracer := (Setup scene1 4 4 allOkSetup allRel t0).2.1

/-- A block request with row offset 0 and height 1. -/
def req0 : BlockRequest :=
  { BlockY := 0, BlockH := 1, SamplesPerPixel := 1, Exposure := 0, Seed := 0
  , RenderTarget := fun _ => 0 }

/-! ### Claims -/

/-- C1: the claim states that for every controller `SyncScene` before
`Setup` returns the `PendingSetup` error and performs no device upload.
On the code, the guard returns `ErrPendingSetup` only when `tr.ctx` is nil,
but `newTracer` already creates the context; so on a freshly constructed
tracer the guard passes and `&tr.scene.Camera.Frustrum[0]` dereferences the
nil scene pointer: a runtime panic, not a `PendingSetup` return. -/
theorem c1_syncScene_before_setup_panics :
    (newTracer ("t") sampleDevice).1 = .ok t0 ∧
    t0.ctx = true ∧
    (SyncScene true t0).1 = .nilDeref ∧
    (SyncScene true t0).1 ≠ .err .PendingSetup ∧
    (SyncScene true t0).2 = [] := by
  exact ⟨rfl, rfl, rfl, by decide, rfl⟩

/-- C5: `Setup` on a tracer whose kernel handle is already attached fails
with `AlreadyAttached`, makes no device call, and returns the state exactly
unchanged (resources, stored scene and frame dimensions untouched); and a
successful first `Setup` does leave the kernel attached. -/
theorem c5_second_setup_already_attached (id : String) (device : Device)
    (sc sc' : Scene) (w h w' h' : Nat) (o : SetupOracle) (relOk relOk' : Res → Bool)
    (tr : ClTracer) (hk : tr.traceKernel = true) :
    Setup sc' w' h' o relOk' tr = (.err .AlreadyAttached, tr, []) ∧
    (Setup sc w h allOkSetup relOk (newTracerState id device)).2.1.traceKernel = true := by
  constructor
  · simp [Setup, hk]
  · rw [setup_ok_eq]; rfl

/-- Witness for C5: the second `Setup` on the concrete ready tracer. -/
theorem c5_second_setup_already_attached_witness :
    readyT.traceKernel = true ∧
    (Setup scene1 8 8 allOkSetup allRel readyT = (.err .AlreadyAttached, readyT, []) ∧
      (Setup scene1 4 4 allOkSetup allRel (newTracerState ("t") sampleDevice)).2.1.traceKernel
        = true) :=
  ⟨by decide,
   c5_second_setup_already_attached ("t") sampleDevice scene1 scene1 4 4 8 8
     allOkSetup allRel allRel readyT (by decide)⟩

/-- C8: `Enqueue` performs a non-blocking send on the unbuffered
`blockReqChan`: with no waiting receiver the request is dropped, the
channel is unchanged, the caller observes neither a success nor a failure
signal for that attempt, and no request is ever buffered. -/
theorem c8_enqueue_drop (c : Chan BlockRequest) (req : BlockRequest)
    (o : ProcOracle) (dev : Nat → Nat) (tr : ClTracer)
    (hc : c = blockReqChanInit) :
    (Enqueue false c req).1 = false ∧
    (Enqueue false c req).2 = c ∧
    attemptSignals false c o dev tr req = [] ∧
    (∀ (w : Bool) (req' : BlockRequest), ((Enqueue w c req').2).buffered = []) := by
  subst hc
  refine ⟨rfl, rfl, rfl, ?_⟩
  intro w req'
  cases w <;> rfl

/-- Witness for C8 at a concrete request. -/
theorem c8_enqueue_drop_witness :
    blockReqChanInit = blockReqChanInit ∧
    ((Enqueue false blockReqChanInit req0).1 = false ∧
     (Enqueue false blockReqChanInit req0).2 = blockReqChanInit ∧
     attemptSignals false blockReqChanInit allOkProc (fun _ => 0) t0 req0 = [] ∧
     (∀ (w : Bool) (req' : BlockRequest),
        ((Enqueue w blockReqChanInit req').2).buffered = [])) :=
  ⟨rfl, c8_enqueue_drop blockReqChanInit req0 allOkProc (fun _ => 0) t0 rfl⟩

/-- C2 counterexample: on the concrete run (construction plus successful
`Setup` of a scene with one material and one primitive) the creation order
is context, queue, program, kernel, output buffer, frustrum buffer,
material image, primitive image — but `cleanup` releases the output buffer
before the frustrum buffer, so the release order is not exactly the
reverse of the creation order. -/
theorem c2_release_not_exact_reverse :
    createdRes ((newTracer ("t") sampleDevice).2 ++ (Setup scene1 4 4 allOkSetup allRel t0).2.2)
      = [.context, .cmdQueue, .program, .kernel, .traceOutput, .frustrumCorners,
         .packedMaterials, .packedPrimitives] ∧
    releasedRes (Close allRel readyT).2.2
      = [.packedPrimitives, .packedMaterials, .traceOutput, .frustrumCorners,
         .kernel, .program, .cmdQueue, .context] ∧
    releasedRes (Close allRel readyT).2.2 ≠
      (createdRes ((newTracer ("t") sampleDevice).2
        ++ (Setup scene1 4 4 allOkSetup allRel t0).2.2)).reverse := by
  exact ⟨by decide, by decide, by decide⟩

/-- C2 (amended): teardown releases the resources in the fixed order
packed-primitive image, packed-material image, output buffer, frustrum
buffer, kernel, program, command queue, context — the reverse of creation
order except that the output buffer is released before the frustrum buffer
(the order in which those two were created) — and, since the release
return codes are ignored, every release in the sequence is attempted
regardless of any release failure. -/
theorem c2_release_order (tr : ClTracer) (relOk relOk' : Res → Bool)
    (h1 : tr.ctx = true) (h2 : tr.cmdQueue = true) (h3 : tr.traceProgram = true)
    (h4 : tr.traceKernel = true) (h5 : tr.traceOutput = true)
    (h6 : tr.frustrumCorners = true) (h7 : tr.packedMaterials = true)
    (h8 : tr.packedPrimitives = true) (hc : tr.closeChanClosed = false) :
    releasedRes (Close relOk tr).2.2
      = [.packedPrimitives, .packedMaterials, .traceOutput, .frustrumCorners,
         .kernel, .program, .cmdQueue, .context] ∧
    Close relOk tr = Close relOk' tr := by
  constructor
  · simp [Close, cleanup, hc, h1, h2, h3, h4, h5, h6, h7, h8, resPresence,
      guardedReleases, releasedRes]
  · rfl

/-- Witness for C2 (amended) on the concrete ready tracer (with one
material and one primitive, all eight resources are present). -/
theorem c2_release_order_witness :
    (readyT.ctx = true ∧ readyT.cmdQueue = true ∧ readyT.traceProgram = true ∧
     readyT.traceKernel = true ∧ readyT.traceOutput = true ∧
     readyT.frustrumCorners = true ∧ readyT.packedMaterials = true ∧
     readyT.packedPrimitives = true ∧ readyT.closeChanClosed = false) ∧
    (releasedRes (Close allRel readyT).2.2
      = [.packedPrimitives, .packedMaterials, .traceOutput, .frustrumCorners,
         .kernel, .program, .cmdQueue, .context] ∧
     Close allRel readyT = Close (fun _ => false) readyT) :=
  ⟨by decide,
   c2_release_order readyT allRel (fun _ => false) (by decide) (by decide) (by decide)
     (by decide) (by decide) (by decide) (by decide) (by decide) (by decide)⟩

/-- C7: `Close` first closes the shutdown channel and waits for the worker
to exit before touching any device handle (the first two trace entries
precede every release); it never panics while the close channel is still
open; a release is only ever attempted for a handle that exists; `Close`
is idempotent (the second call is a no-op); and `Close` before `Setup`
releases exactly the constructor-allocated queue and context. -/
theorem c7_close_discipline (tr : ClTracer) (relOk relOk' : Res → Bool)
    (id : String) (device : Device) (hc : tr.closeChanClosed = false) :
    (Close relOk tr).1 = .ok () ∧
    (tr.ctx = true → ∃ rest, (Close relOk tr).2.2 =
        Event.closeChanClose :: Event.waitWorker :: rest ∧
        ∀ e ∈ rest, ∃ r, e = Event.release r) ∧
    (∀ r, Event.release r ∈ (Close relOk tr).2.2 → hasRes tr r = true) ∧
    Close relOk' (Close relOk tr).2.1 = (.ok (), (Close relOk tr).2.1, []) ∧
    (Close relOk (newTracerState id device)).2.2 =
      [Event.closeChanClose, Event.waitWorker, .release .cmdQueue, .release .context] := by
  have hlast : (Close relOk (newTracerState id device)).2.2 =
      [Event.closeChanClose, Event.waitWorker, .release .cmdQueue, .release .context] := by
    simp [Close, cleanup, newTracerState, resPresence, guardedReleases]
  by_cases h1 : tr.ctx = false
  · refine ⟨by simp [Close, cleanup, h1], ?_, ?_, by simp [Close, cleanup, h1], hlast⟩
    · intro hctx; rw [hctx] at h1; cases h1
    · intro r hmem; simp [Close, cleanup, h1] at hmem
  · have h1' : tr.ctx = true := by simpa using h1
    refine ⟨by simp [Close, cleanup, h1', hc], ?_, ?_, ?_, hlast⟩
    · intro _
      refine ⟨guardedReleases (resPresence tr), by simp [Close, cleanup, h1', hc], ?_⟩
      intro e he
      obtain ⟨p, _, _, hp2⟩ := mem_guardedReleases he
      exact ⟨p.2, hp2⟩
    · intro r hmem
      simp [Close, cleanup, h1', hc] at hmem
      obtain ⟨p, hp, hp1, hp2⟩ := mem_guardedReleases hmem
      obtain ⟨b, r'⟩ := p
      have hrr : r = r' := by simpa using hp2
      subst hrr
      simp [resPresence] at hp
      rcases hp with ⟨hb, hr'⟩ | ⟨hb, hr'⟩ | ⟨hb, hr'⟩ | ⟨hb, hr'⟩ |
        ⟨hb, hr'⟩ | ⟨hb, hr'⟩ | ⟨hb, hr'⟩ | ⟨hb, hr'⟩ <;>
        (subst hr'; simp [hasRes]; rw [← hb]; exact hp1)
    · simp [Close, cleanup, h1', hc]

/-- Witness for C7 on the concrete ready tracer. -/
theorem c7_close_discipline_witness :
    readyT.closeChanClosed = false ∧
    ((Close allRel readyT).1 = .ok () ∧
     (readyT.ctx = true → ∃ rest, (Close allRel readyT).2.2 =
         Event.closeChanClose :: Event.waitWorker :: rest ∧
         ∀ e ∈ rest, ∃ r, e = Event.release r) ∧
     (∀ r, Event.release r ∈ (Close allRel readyT).2.2 → hasRes readyT r = true) ∧
     Close allRel (Close allRel readyT).2.1 = (.ok (), (Close allRel readyT).2.1, []) ∧
     (Close allRel (newTracerState ("t") sampleDevice)).2.2 =
       [Event.closeChanClose, Event.waitWorker, .release .cmdQueue, .release .context]) :=
  ⟨by decide, c7_close_discipline readyT allRel allRel ("t") sampleDevice (by decide)⟩

/-- C6: when kernel compilation fails during `Setup`, the build diagnostic
is retrieved (`getBuildInfo`) and logged, the call returns
`ProgramBuildFailed`, and a full cleanup runs first: no device resource
remains allocated afterwards (queue and context included); with a
non-empty compiler diagnostic the logged text is non-empty. -/
theorem c6_build_failure (id : String) (device : Device) (sc : Scene) (w h : Nat)
    (o : SetupOracle) (relOk : Res → Bool) (ho : o.openOk = true)
    (hr : o.readOk = true) (hb : o.buildOk = false) (hl : o.buildLog ≠ "") :
    (Setup sc w h o relOk (newTracerState id device)).1 = .err .ProgramBuildFailed ∧
    (Setup sc w h o relOk (newTracerState id device)).2.2 =
      [.createProgram, .buildProgram, .getBuildInfo,
       .logMsg (buildLogHead ++ o.buildLog),
       .closeChanClose, .waitWorker, .release .program, .release .cmdQueue,
       .release .context] ∧
    (∀ r, hasRes (Setup sc w h o relOk (newTracerState id device)).2.1 r = false) ∧
    buildLogHead ++ o.buildLog ≠ "" := by
  have key : Setup sc w h o relOk (newTracerState id device) =
      (.err .ProgramBuildFailed,
       { id := id, device := device, ctx := false, cmdQueue := false
       , traceProgram := false, traceKernel := false, traceOutput := false
       , frustrumCorners := false, packedMaterials := false
       , packedPrimitives := false, scene := some sc, frameW := w, frameH := h
       , closeChanClosed := true, workerRunning := false },
       [.createProgram, .buildProgram, .getBuildInfo,
        .logMsg (buildLogHead ++ o.buildLog),
        .closeChanClose, .waitWorker, .release .program, .release .cmdQueue,
        .release .context]) := by
    simp [Setup, setupKernel, newTracerState, ho, hr, hb, failCleanup, cleanup,
      resPresence, guardedReleases]
  refine ⟨by rw [key], by rw [key], ?_, ?_⟩
  · intro r; rw [key]; cases r <;> rfl
  · intro hcontra
    have h2 := congrArg String.length hcontra
    rw [String.length_append, String.length_empty] at h2
    have h3 : 0 < buildLogHead.length := by decide
    have h4 : o.buildLog.length = 0 := by omega
    have h5 : o.buildLog = "" := by
      cases hbl : o.buildLog with
      | mk dat =>
        rw [hbl] at h4
        simp [String.length] at h4
        simp [h4]
    exact hl h5

/-- Witness for C6 with a one-character diagnostic. -/
theorem c6_build_failure_witness :
    ({ openOk := true, readOk := true, buildOk := false, buildLog := "x"
     , writeFrustumOk := true : SetupOracle }.openOk = true ∧
     { openOk := true, readOk := true, buildOk := false, buildLog := "x"
     , writeFrustumOk := true : SetupOracle }.buildOk = false ∧
     ("x" : String) ≠ "") ∧
    ((Setup scene1 4 4
        { openOk := true, readOk := true, buildOk := false, buildLog := "x"
        , writeFrustumOk := true } allRel (newTracerState ("t") sampleDevice)).1 =
          .err .ProgramBuildFailed ∧
     (Setup scene1 4 4
        { openOk := true, readOk := true, buildOk := false, buildLog := "x"
        , writeFrustumOk := true } allRel (newTracerState ("t") sampleDevice)).2.2 =
      [.createProgram, .buildProgram, .getBuildInfo, .logMsg (buildLogHead ++ "x"),
       .closeChanClose, .waitWorker, .release .program, .release .cmdQueue,
       .release .context] ∧
     (∀ r, hasRes (Setup scene1 4 4
        { openOk := true, readOk := true, buildOk := false, buildLog := "x"
        , writeFrustumOk := true } allRel (newTracerState ("t") sampleDevice)).2.1 r
          = false) ∧
     buildLogHead ++ "x" ≠ "") :=
  ⟨⟨rfl, rfl, by decide⟩,
   c6_build_failure ("t") sampleDevice scene1 4 4
     { openOk := true, readOk := true, buildOk := false, buildLog := "x"
     , writeFrustumOk := true } allRel rfl rfl rfl (by decide)⟩

/-- C9: during a successful `Setup`, an empty packed material (resp.
primitive) sequence allocates no device image; a non-empty one creates a
read-only image with the packed data uploaded as part of the allocation
itself, whose width `sizeInBytes >> 4` equals the number of 16-byte
records. -/
theorem c9_packed_images (id : String) (device : Device) (sc : Scene) (w h : Nat)
    (relOk : Res → Bool) :
    (Setup sc w h allOkSetup relOk (newTracerState id device)).1 = .ok () ∧
    (sc.materials = [] →
      (Setup sc w h allOkSetup relOk (newTracerState id device)).2.1.packedMaterials
          = false ∧
      ∀ (wd : Nat) (ro : Bool) (dat : List Vec4),
        Event.createImage .packedMaterials wd ro dat ∉
          (Setup sc w h allOkSetup relOk (newTracerState id device)).2.2) ∧
    (sc.materials ≠ [] →
      (Setup sc w h allOkSetup relOk (newTracerState id device)).2.1.packedMaterials
          = true ∧
      Event.createImage .packedMaterials ((sc.materials.length * packedRecordSize) >>> 4)
          true (sc.materials.map Material.packed) ∈
        (Setup sc w h allOkSetup relOk (newTracerState id device)).2.2 ∧
      (sc.materials.length * packedRecordSize) >>> 4 = sc.materials.length) ∧
    (sc.primitives = [] →
      (Setup sc w h allOkSetup relOk (newTracerState id device)).2.1.packedPrimitives
          = false ∧
      ∀ (wd : Nat) (ro : Bool) (dat : List Vec4),
        Event.createImage .packedPrimitives wd ro dat ∉
          (Setup sc w h allOkSetup relOk (newTracerState id device)).2.2) ∧
    (sc.primitives ≠ [] →
      (Setup sc w h allOkSetup relOk (newTracerState id device)).2.1.packedPrimitives
          = true ∧
      Event.createImage .packedPrimitives ((sc.primitives.length * packedRecordSize) >>> 4)
          true (sc.primitives.map Primitive.packed) ∈
        (Setup sc w h allOkSetup relOk (newTracerState id device)).2.2 ∧
      (sc.primitives.length * packedRecordSize) >>> 4 = sc.primitives.length) := by
  have hshift : ∀ n : Nat, (n * packedRecordSize) >>> 4 = n := by
    intro n
    simp [packedRecordSize, Nat.shiftRight_eq_div_pow]
  rw [setup_ok_eq]
  refine ⟨rfl, ?_, ?_, ?_, ?_⟩
  · intro hm
    constructor
    · simp [readyState, hm]
    · intro wd ro dat
      simp [setupEvents, hm]
  · intro hm
    have hm1 : 0 < sc.materials.length := List.length_pos.mpr hm
    refine ⟨?_, ?_, hshift _⟩
    · simp [readyState, List.isEmpty_iff, hm]
    · simp [setupEvents, hm1]
  · intro hp
    constructor
    · simp [readyState, hp]
    · intro wd ro dat
      simp [setupEvents, hp]
  · intro hp
    have hp1 : 0 < sc.primitives.length := List.length_pos.mpr hp
    refine ⟨?_, ?_, hshift _⟩
    · simp [readyState, List.isEmpty_iff, hp]
    · simp [setupEvents, hp1]

/-- Witness for C9 on a scene with one material, one primitive. -/
theorem c9_packed_images_witness :
    scene1.materials ≠ [] ∧ scene1.primitives ≠ [] ∧
    ((Setup scene1 4 4 allOkSetup allRel (newTracerState ("t") sampleDevice)).1
        = .ok () ∧
     (scene1.materials = [] →
       (Setup scene1 4 4 allOkSetup allRel (newTracerState ("t") sampleDevice)).2.1.packedMaterials = false ∧
       ∀ (wd : Nat) (ro : Bool) (dat : List Vec4),
         Event.createImage .packedMaterials wd ro dat ∉
           (Setup scene1 4 4 allOkSetup allRel (newTracerState ("t") sampleDevice)).2.2) ∧
     (scene1.materials ≠ [] →
       (Setup scene1 4 4 allOkSetup allRel (newTracerState ("t") sampleDevice)).2.1.packedMaterials = true ∧
       Event.createImage .packedMaterials ((scene1.materials.length * packedRecordSize) >>> 4)
           true (scene1.materials.map Material.packed) ∈
         (Setup scene1 4 4 allOkSetup allRel (newTracerState ("t") sampleDevice)).2.2 ∧
       (scene1.materials.length * packedRecordSize) >>> 4 = scene1.materials.length) ∧
     (scene1.primitives = [] →
       (Setup scene1 4 4 allOkSetup allRel (newTracerState ("t") sampleDevice)).2.1.packedPrimitives = false ∧
       ∀ (wd : Nat) (ro : Bool) (dat : List Vec4),
         Event.createImage .packedPrimitives wd ro dat ∉
           (Setup scene1 4 4 allOkSetup allRel (newTracerState ("t") sampleDevice)).2.2) ∧
     (scene1.primitives ≠ [] →
       (Setup scene1 4 4 allOkSetup allRel (newTracerState ("t") sampleDevice)).2.1.packedPrimitives = true ∧
       Event.createImage .packedPrimitives ((scene1.primitives.length * packedRecordSize) >>> 4)
           true (scene1.primitives.map Primitive.packed) ∈
         (Setup scene1 4 4 allOkSetup allRel (newTracerState ("t") sampleDevice)).2.2 ∧
       (scene1.primitives.length * packedRecordSize) >>> 4 = scene1.primitives.length)) :=
  ⟨by decide, by decide,
   c9_packed_images ("t") sampleDevice scene1 4 4 allRel⟩

theorem mul16 (w y : Nat) : w * 4 * 4 * y = 16 * (w * y) := by ring

/-- A ready tracer with an 8-pixel-wide frame, for concrete processing runs. -/
def procTracer : ClTracer :=
  { t0 with
    scene := some scene1
    frameW := 8
    frameH := 8
    traceProgram := true
    traceKernel := true
    traceOutput := true
    frustrumCorners := true
    packedMaterials := true
    packedPrimitives := true
    workerRunning := true }

/-- A ready tracer whose frame is 2^26 pixels wide: with row offset 4 the
uint32 byte-offset product reaches exactly 2^32 and wraps to 0. -/
def bigTracer : ClTracer :=
  { t0 with
    scene := some scene1
    frameW := 67108864
    frameH := 8
    traceProgram := true
    traceKernel := true
    traceOutput := true
    frustrumCorners := true
    packedMaterials := true
    packedPrimitives := true
    workerRunning := true }

/-- Row offset 4, height 1: the offset product for `bigTracer` wraps. -/
def wrapReq : BlockRequest :=
  { BlockY := 4, BlockH := 1, SamplesPerPixel := 1, Exposure := 0, Seed := 0
  , RenderTarget := fun _ => 0 }

/-- C4: kernel arguments are bound in the fixed index order 0..9 with the
documented sizes and values — output buffer (8), frustrum buffer (8),
packed-primitive image (8), packed-material image (8), primitive count
(4), eye position (16), block row offset (4), samples-per-pixel (4),
exposure (4), random seed (4) — all ten before anything else follows the
frustrum upload; and if any single binding fails, processing aborts with
`SettingKernelArguments` and no kernel dispatch appears in the trace. -/
theorem c4_kernel_arg_abi (o : ProcOracle) (dev : Nat → Nat) (tr : ClTracer)
    (req : BlockRequest) (scn : Scene) (hs : tr.scene = some scn)
    (hw : o.writeFrustumOk = true) :
    ((∀ i, o.setArgOk i = true) →
      setArgCalls (process o dev tr req).2 =
        [(0, 8, .memObj .traceOutput), (1, 8, .memObj .frustrumCorners),
         (2, 8, .memObj .packedPrimitives), (3, 8, .memObj .packedMaterials),
         (4, 4, .word32 (scn.primitives.length % pow32)),
         (5, 16, .vec scn.camera.position),
         (6, 4, .word32 req.BlockY), (7, 4, .word32 req.SamplesPerPixel),
         (8, 4, .word32 req.Exposure), (9, 4, .word32 req.Seed)] ∧
      ∃ tail, (process o dev tr req).2 =
          Event.writeBuffer .frustrumCorners 0 (4 * 16) ::
            ((kernelArgs scn req).map fun a => Event.setKernelArg a.idx a.bytes a.val)
            ++ tail ∧
        setArgCalls tail = []) ∧
    ((∃ i, i < 10 ∧ o.setArgOk i = false) →
      (process o dev tr req).1 = .err .SettingKernelArguments ∧
      ∀ (d : Nat) (off sz : List Nat),
        Event.ndRange d off sz ∉ (process o dev tr req).2) := by
  constructor
  · intro ha
    have hb := bindArgs_all_ok o.setArgOk (kernelArgs scn req) (fun a _ => ha a.idx)
    simp [kernelArgs] at hb
    constructor
    · by_cases hn : o.ndRangeOk = true <;> by_cases hf : o.finishOk = true <;>
        by_cases hrd : o.readOk = true <;>
        simp [process, hs, hw, hb, hn, hf, hrd, kernelArgs, setArgCalls]
    · refine ⟨(if o.ndRangeOk = false then
          [Event.ndRange 2 [0, req.BlockY] [tr.frameW, req.BlockH]]
        else if o.finishOk = false then
          [Event.ndRange 2 [0, req.BlockY] [tr.frameW, req.BlockH], Event.finish]
        else if o.readOk = false then
          [Event.ndRange 2 [0, req.BlockY] [tr.frameW, req.BlockH], Event.finish,
           Event.readBuffer ((tr.frameW * 4 * 4 * req.BlockY) % pow32)
             ((tr.frameW * 4 * 4 * req.BlockH) % pow32)
             (((tr.frameW * 4 * 4 * req.BlockY) % pow32) >>> 2),
           Event.logMsg ("Error copying data to host")]
        else
          [Event.ndRange 2 [0, req.BlockY] [tr.frameW, req.BlockH], Event.finish,
           Event.readBuffer ((tr.frameW * 4 * 4 * req.BlockY) % pow32)
             ((tr.frameW * 4 * 4 * req.BlockH) % pow32)
             (((tr.frameW * 4 * 4 * req.BlockY) % pow32) >>> 2)]), ?_, ?_⟩
      · split_ifs with h1 h2 h3
        · simp [process, hs, hw, hb, kernelArgs, h1]
        · simp [process, hs, hw, hb, kernelArgs, h1, h2]
        · simp [process, hs, hw, hb, kernelArgs, h1, h2, h3]
        · simp [process, hs, hw, hb, kernelArgs, h1, h2, h3]
      · split_ifs <;> simp [setArgCalls]
  · rintro ⟨i, hi, hif⟩
    have hmem : ∃ a ∈ kernelArgs scn req, o.setArgOk a.idx = false := by
      interval_cases i
      · exact ⟨⟨0, 8, .memObj .traceOutput⟩, by simp [kernelArgs], hif⟩
      · exact ⟨⟨1, 8, .memObj .frustrumCorners⟩, by simp [kernelArgs], hif⟩
      · exact ⟨⟨2, 8, .memObj .packedPrimitives⟩, by simp [kernelArgs], hif⟩
      · exact ⟨⟨3, 8, .memObj .packedMaterials⟩, by simp [kernelArgs], hif⟩
      · exact ⟨⟨4, 4, .word32 (scn.primitives.length % pow32)⟩, by simp [kernelArgs], hif⟩
      · exact ⟨⟨5, 16, .vec scn.camera.position⟩, by simp [kernelArgs], hif⟩
      · exact ⟨⟨6, 4, .word32 req.BlockY⟩, by simp [kernelArgs], hif⟩
      · exact ⟨⟨7, 4, .word32 req.SamplesPerPixel⟩, by simp [kernelArgs], hif⟩
      · exact ⟨⟨8, 4, .word32 req.Exposure⟩, by simp [kernelArgs], hif⟩
      · exact ⟨⟨9, 4, .word32 req.Seed⟩, by simp [kernelArgs], hif⟩
    have hberr := bindArgs_fail o.setArgOk (kernelArgs scn req) hmem
    obtain ⟨aevs, hpair⟩ : ∃ aevs, bindArgs o.setArgOk (kernelArgs scn req) =
        (some TraceErr.SettingKernelArguments, aevs) :=
      ⟨(bindArgs o.setArgOk (kernelArgs scn req)).2, by rw [← hberr]⟩
    have h2nd : (bindArgs o.setArgOk (kernelArgs scn req)).2 = aevs := by
      rw [hpair]
    constructor
    · simp [process, hs, hw, hpair]
    · intro d off sz hmem2
      simp [process, hs, hw, hpair] at hmem2
      rw [← h2nd] at hmem2
      exact bindArgs_no_ndRange o.setArgOk (kernelArgs scn req) d off sz hmem2

/-- A device oracle that rejects the binding of kernel argument 3. -/
def failArg3 : ProcOracle :=
  { writeFrustumOk := true, setArgOk := fun i => i != 3, ndRangeOk := true
  , finishOk := true, readOk := true }

/-- Witness for C4 with a device that rejects argument 3. -/
theorem c4_kernel_arg_abi_witness :
    procTracer.scene = some scene1 ∧
    failArg3.writeFrustumOk = true ∧
    (((∀ i, failArg3.setArgOk i = true) →
      setArgCalls (process failArg3 (fun _ => 7) procTracer req0).2 =
        [(0, 8, .memObj .traceOutput), (1, 8, .memObj .frustrumCorners),
         (2, 8, .memObj .packedPrimitives), (3, 8, .memObj .packedMaterials),
         (4, 4, .word32 (scene1.primitives.length % pow32)),
         (5, 16, .vec scene1.camera.position),
         (6, 4, .word32 req0.BlockY), (7, 4, .word32 req0.SamplesPerPixel),
         (8, 4, .word32 req0.Exposure), (9, 4, .word32 req0.Seed)] ∧
      ∃ tail, (process failArg3 (fun _ => 7) procTracer req0).2 =
          Event.writeBuffer .frustrumCorners 0 (4 * 16) ::
            ((kernelArgs scene1 req0).map fun a => Event.setKernelArg a.idx a.bytes a.val)
            ++ tail ∧
        setArgCalls tail = []) ∧
    ((∃ i, i < 10 ∧ failArg3.setArgOk i = false) →
      (process failArg3 (fun _ => 7) procTracer req0).1 = .err .SettingKernelArguments ∧
      ∀ (d : Nat) (off sz : List Nat),
        Event.ndRange d off sz ∉ (process failArg3 (fun _ => 7) procTracer req0).2)) :=
  ⟨rfl, rfl,
   c4_kernel_arg_abi failArg3 (fun _ => 7) procTracer req0 scene1 rfl rfl⟩

/-- C3 counterexample: with frame width 2^26 and row offset 4, the request
is processed successfully (all device calls succeed), but the device-to-host
copy reads at byte offset 0 with host float index 0, while the claim's byte
offset `4 * 4 * w * y` is 2^32: the unamended claim fails because the
uint32 product wrapped. -/
theorem c3_copy_offset_wraps :
    (process allOkProc (fun _ => 7) bigTracer wrapReq).1 =
      .ok (applyRead (fun _ => 7) wrapReq.RenderTarget 0 1073741824) ∧
    readCalls (process allOkProc (fun _ => 7) bigTracer wrapReq).2 =
      [(0, 1073741824, 0)] ∧
    4 * 4 * bigTracer.frameW * wrapReq.BlockY = 4294967296 ∧
    (0 : Nat) ≠ 4 * 4 * bigTracer.frameW * wrapReq.BlockY :=
  ⟨rfl, by decide, by decide, by decide⟩

/-- C3 (amended): provided the two 32-bit byte products do not overflow
(`frameW * 4 * 4 * BlockY < 2^32` and `frameW * 4 * 4 * BlockH < 2^32` —
the counterexample shows the claim fails otherwise), a processed block
request copies exactly `4 * 4 * w * h` bytes from the device output buffer
at byte offset `4 * 4 * w * y` into the render target at float index
`w * 4 * y` (the byte offset divided by 4); floats outside
`[4wy, 4wy + 4wh)` keep their previous values and floats inside receive
the device data; a copy failure yields `CopyingDataToHost`. -/
theorem c3_copy_region (o : ProcOracle) (dev : Nat → Nat) (tr : ClTracer)
    (req : BlockRequest) (scn : Scene) (hs : tr.scene = some scn)
    (hw : o.writeFrustumOk = true) (ha : ∀ i, o.setArgOk i = true)
    (hn : o.ndRangeOk = true) (hf : o.finishOk = true)
    (hy : tr.frameW * 4 * 4 * req.BlockY < pow32)
    (hh : tr.frameW * 4 * 4 * req.BlockH < pow32) :
    pow32 = 2 ^ 32 ∧
    readCalls (process o dev tr req).2 =
      [(tr.frameW * 4 * 4 * req.BlockY, tr.frameW * 4 * 4 * req.BlockH,
        tr.frameW * 4 * req.BlockY)] ∧
    tr.frameW * 4 * 4 * req.BlockY = 4 * 4 * tr.frameW * req.BlockY ∧
    tr.frameW * 4 * 4 * req.BlockH = 4 * 4 * tr.frameW * req.BlockH ∧
    tr.frameW * 4 * req.BlockY = (tr.frameW * 4 * 4 * req.BlockY) / 4 ∧
    (o.readOk = true →
      (process o dev tr req).1 =
        .ok (applyRead dev req.RenderTarget (tr.frameW * 4 * 4 * req.BlockY)
          (tr.frameW * 4 * 4 * req.BlockH))) ∧
    (∀ i, i < 4 * (tr.frameW * req.BlockY) ∨
        4 * (tr.frameW * req.BlockY) + 4 * (tr.frameW * req.BlockH) ≤ i →
      applyRead dev req.RenderTarget (tr.frameW * 4 * 4 * req.BlockY)
        (tr.frameW * 4 * 4 * req.BlockH) i = req.RenderTarget i) ∧
    (∀ i, 4 * (tr.frameW * req.BlockY) ≤ i →
        i < 4 * (tr.frameW * req.BlockY) + 4 * (tr.frameW * req.BlockH) →
      applyRead dev req.RenderTarget (tr.frameW * 4 * 4 * req.BlockY)
        (tr.frameW * 4 * 4 * req.BlockH) i = dev i) ∧
    (o.readOk = false → (process o dev tr req).1 = .err .CopyingDataToHost) := by
  have hb := bindArgs_all_ok o.setArgOk (kernelArgs scn req) (fun a _ => ha a.idx)
  simp [kernelArgs] at hb
  have e1 : (tr.frameW * 4 * 4 * req.BlockY) % pow32 = tr.frameW * 4 * 4 * req.BlockY :=
    Nat.mod_eq_of_lt hy
  have e2 : (tr.frameW * 4 * 4 * req.BlockH) % pow32 = tr.frameW * 4 * 4 * req.BlockH :=
    Nat.mod_eq_of_lt hh
  have d1 : tr.frameW * 4 * 4 * req.BlockY / 4 = 4 * (tr.frameW * req.BlockY) := by
    rw [mul16]; omega
  have d2 : tr.frameW * 4 * 4 * req.BlockH / 4 = 4 * (tr.frameW * req.BlockH) := by
    rw [mul16]; omega
  have hq : tr.frameW * 4 * req.BlockY = 4 * (tr.frameW * req.BlockY) := by ring
  have s1 : (tr.frameW * 4 * 4 * req.BlockY) >>> 2 = tr.frameW * 4 * req.BlockY := by
    rw [Nat.shiftRight_eq_div_pow, mul16, hq]
    omega
  refine ⟨by norm_num [pow32], ?_, by ring, by ring, by rw [d1, hq], ?_, ?_, ?_, ?_⟩
  · by_cases hrd : o.readOk = true <;>
      simp [process, hs, hw, hb, hn, hf, hrd, kernelArgs, readCalls, e1, e2, s1]
  · intro hrd
    simp [process, hs, hw, hb, hn, hf, hrd, kernelArgs, e1, e2]
  · intro i hi
    have hcond : ¬(tr.frameW * 4 * 4 * req.BlockY / 4 ≤ i ∧
        i < tr.frameW * 4 * 4 * req.BlockY / 4 + tr.frameW * 4 * 4 * req.BlockH / 4) := by
      rw [d1, d2]; omega
    simp [applyRead, hcond]
  · intro i hi1 hi2
    have hcond : tr.frameW * 4 * 4 * req.BlockY / 4 ≤ i ∧
        i < tr.frameW * 4 * 4 * req.BlockY / 4 + tr.frameW * 4 * 4 * req.BlockH / 4 := by
      rw [d1, d2]; omega
    simp [applyRead, hcond]
  · intro hrd
    have hrd' : o.readOk = false := hrd
    simp [process, hs, hw, hb, hn, hf, hrd', kernelArgs]

/-- Witness for C3 (amended): frame width 8, rows 2..4. -/
theorem c3_copy_region_witness :
    (procTracer.scene = some scene1 ∧ allOkProc.writeFrustumOk = true ∧
     (∀ i, allOkProc.setArgOk i = true) ∧ allOkProc.ndRangeOk = true ∧
     allOkProc.finishOk = true ∧
     procTracer.frameW * 4 * 4 * (2 : Nat) < pow32 ∧
     procTracer.frameW * 4 * 4 * (3 : Nat) < pow32) ∧
    (pow32 = 2 ^ 32 ∧
     readCalls (process allOkProc (fun _ => 7) procTracer
        { BlockY := 2, BlockH := 3, SamplesPerPixel := 1, Exposure := 0, Seed := 0
        , RenderTarget := fun _ => 0 }).2 =
      [(procTracer.frameW * 4 * 4 * 2, procTracer.frameW * 4 * 4 * 3,
        procTracer.frameW * 4 * 2)] ∧
     procTracer.frameW * 4 * 4 * 2 = 4 * 4 * procTracer.frameW * 2 ∧
     procTracer.frameW * 4 * 4 * 3 = 4 * 4 * procTracer.frameW * 3 ∧
     procTracer.frameW * 4 * 2 = (procTracer.frameW * 4 * 4 * 2) / 4 ∧
     (allOkProc.readOk = true →
       (process allOkProc (fun _ => 7) procTracer
         { BlockY := 2, BlockH := 3, SamplesPerPixel := 1, Exposure := 0, Seed := 0
         , RenderTarget := fun _ => 0 }).1 =
         .ok (applyRead (fun _ => 7) (fun _ => 0) (procTracer.frameW * 4 * 4 * 2)
           (procTracer.frameW * 4 * 4 * 3))) ∧
     (∀ i, i < 4 * (procTracer.frameW * 2) ∨
         4 * (procTracer.frameW * 2) + 4 * (procTracer.frameW * 3) ≤ i →
       applyRead (fun _ => 7) (fun _ => 0) (procTracer.frameW * 4 * 4 * 2)
         (procTracer.frameW * 4 * 4 * 3) i = (fun _ => (0 : Nat)) i) ∧
     (∀ i, 4 * (procTracer.frameW * 2) ≤ i →
         i < 4 * (procTracer.frameW * 2) + 4 * (procTracer.frameW * 3) →
       applyRead (fun _ => 7) (fun _ => 0) (procTracer.frameW * 4 * 4 * 2)
         (procTracer.frameW * 4 * 4 * 3) i = (fun _ => (7 : Nat)) i) ∧
     (allOkProc.readOk = false →
       (process allOkProc (fun _ => 7) procTracer
         { BlockY := 2, BlockH := 3, SamplesPerPixel := 1, Exposure := 0, Seed := 0
         , RenderTarget := fun _ => 0 }).1 = .err .CopyingDataToHost)) :=
  ⟨⟨rfl, rfl, fun _ => rfl, rfl, rfl, by decide, by decide⟩,
   c3_copy_region allOkProc (fun _ => 7) procTracer
     { BlockY := 2, BlockH := 3, SamplesPerPixel := 1, Exposure := 0, Seed := 0
     , RenderTarget := fun _ => 0 } scene1 rfl rfl (fun _ => rfl) rfl rfl
     (by decide) (by decide)⟩

/-- C10: the device-to-host copy's byte offset and byte length in `process`
are the 32-bit products `frameW * 4 * 4 * BlockY` and
`frameW * 4 * 4 * BlockH` reduced modulo 2^32 (they are computed in uint32
and only then widened to 64 bits), so they equal the specified byte
formulas only modulo 2^32 and wrap whenever the product reaches 2^32. -/
theorem c10_read_offset_mod32 (o : ProcOracle) (dev : Nat → Nat) (tr : ClTracer)
    (req : BlockRequest) (scn : Scene) (hs : tr.scene = some scn)
    (hw : o.writeFrustumOk = true) (ha : ∀ i, o.setArgOk i = true)
    (hn : o.ndRangeOk = true) (hf : o.finishOk = true) :
    pow32 = 2 ^ 32 ∧
    readCalls (process o dev tr req).2 =
      [((tr.frameW * 4 * 4 * req.BlockY) % pow32,
        (tr.frameW * 4 * 4 * req.BlockH) % pow32,
        ((tr.frameW * 4 * 4 * req.BlockY) % pow32) >>> 2)] ∧
    (pow32 ≤ tr.frameW * 4 * 4 * req.BlockY →
      (tr.frameW * 4 * 4 * req.BlockY) % pow32 ≠ tr.frameW * 4 * 4 * req.BlockY) ∧
    (pow32 ≤ tr.frameW * 4 * 4 * req.BlockH →
      (tr.frameW * 4 * 4 * req.BlockH) % pow32 ≠ tr.frameW * 4 * 4 * req.BlockH) := by
  have hb := bindArgs_all_ok o.setArgOk (kernelArgs scn req) (fun a _ => ha a.idx)
  simp [kernelArgs] at hb
  refine ⟨by norm_num [pow32], ?_, ?_, ?_⟩
  · by_cases hrd : o.readOk = true <;>
      simp [process, hs, hw, hb, hn, hf, hrd, kernelArgs, readCalls]
  · intro hge
    rw [show pow32 = 4294967296 from rfl] at hge ⊢
    omega
  · intro hge
    rw [show pow32 = 4294967296 from rfl] at hge ⊢
    omega

/-- Witness for C10 on the wrapping input (frame width 2^26, row offset 4). -/
theorem c10_read_offset_mod32_witness :
    (bigTracer.scene = some scene1 ∧ allOkProc.writeFrustumOk = true ∧
     (∀ i, allOkProc.setArgOk i = true) ∧ allOkProc.ndRangeOk = true ∧
     allOkProc.finishOk = true) ∧
    (pow32 = 2 ^ 32 ∧
     readCalls (process allOkProc (fun _ => 7) bigTracer wrapReq).2 =
      [((bigTracer.frameW * 4 * 4 * wrapReq.BlockY) % pow32,
        (bigTracer.frameW * 4 * 4 * wrapReq.BlockH) % pow32,
        ((bigTracer.frameW * 4 * 4 * wrapReq.BlockY) % pow32) >>> 2)] ∧
     (pow32 ≤ bigTracer.frameW * 4 * 4 * wrapReq.BlockY →
       (bigTracer.frameW * 4 * 4 * wrapReq.BlockY) % pow32 ≠
         bigTracer.frameW * 4 * 4 * wrapReq.BlockY) ∧
     (pow32 ≤ bigTracer.frameW * 4 * 4 * wrapReq.BlockH →
       (bigTracer.frameW * 4 * 4 * wrapReq.BlockH) % pow32 ≠
         bigTracer.frameW * 4 * 4 * wrapReq.BlockH)) :=
  ⟨⟨rfl, rfl, fun _ => rfl, rfl, rfl⟩,
   c10_read_offset_mod32 allOkProc (fun _ => 7) bigTracer wrapReq scene1 rfl rfl
     (fun _ => rfl) rfl rfl⟩

end Opencl
